import Mathlib

/-!
Shallow embedding of the MCP tool-server scripts of this repository:

* `src/unnamed/part_000`, first script — the "Anthony" server with the
  `ask-anthony` and `generate-commit-message` tools;
* `src/unnamed/part_000`, second script — the "gemini" server with the
  single `gemini` tool (no try/catch in its handler);
* `src/mcp-servers/fine-tuned/src/navigator.ts` — the navigator server
  with the `agent-query`, `chat` and `rag-query` tools.

JavaScript runtime values that the handlers touch (parsed JSON bodies,
property reads, template-literal interpolation, `JSON.stringify`) are
modelled by the `Js` type and the functions on it.  Outbound network
activity — `fetch` calls and the Gemini SDK `generateContent` call — is
modelled by oracle functions supplied to each handler, and every attempted
outbound call is recorded in an explicit trace.  `console.error` writes are
collected in an explicit log list.
-/

/-- A JavaScript runtime value, as far as the handlers inspect one.
Numbers are modelled as integers: every number these scripts produce or
validate (`modelId`, JSON numerics in examples) is integral, and zod's
`.int()` is the only numeric refinement used. -/
inductive Js where
  | undefined : Js
  | null : Js
  | bool (b : Bool) : Js
  | num (n : Int) : Js
  | str (s : String) : Js
  | arr (elems : List Js) : Js
  | obj (fields : List (String × Js)) : Js

/-- JavaScript property read `v[k]`.  Reading a property of `undefined` or
`null` throws a TypeError; reading a missing property of an object, or any
property of another primitive, yields `undefined`.  Errors are carried as
their message strings. -/
def jsGet (v : Js) (k : String) : Except String Js :=
  match v with
  | .undefined => .error ("TypeError: Cannot read properties of undefined (reading " ++ k ++ ")")
  | .null => .error ("TypeError: Cannot read properties of null (reading " ++ k ++ ")")
  | .obj fields =>
    match fields.lookup k with
    | some w => .ok w
    | none => .ok .undefined
  | _ => .ok .undefined

mutual

/-- JavaScript string coercion, as performed by template-literal
interpolation: `undefined` renders as `"undefined"`, arrays join their
elements with commas (with `null`/`undefined` elements rendered empty),
plain objects render as `"[object Object]"`. -/
def jsInterp : Js → String
  | .undefined => "undefined"
  | .null => "null"
  | .bool b => if b then "true" else "false"
  | .num n => toString n
  | .str s => s
  | .arr elems => jsArrJoin elems
  | .obj _ => "[object Object]"

/-- `Array.prototype.toString`: comma-join of the elements. -/
def jsArrJoin : List Js → String
  | [] => ""
  | [v] => jsArrElem v
  | v :: rest => jsArrElem v ++ "," ++ jsArrJoin rest

/-- One array element under string coercion: as `jsInterp`, except that
`null` and `undefined` render empty inside an array join. -/
def jsArrElem : Js → String
  | .null => ""
  | .undefined => ""
  | .bool b => if b then "true" else "false"
  | .num n => toString n
  | .str s => s
  | .arr elems => jsArrJoin elems
  | .obj _ => "[object Object]"

end

/-- JSON string escaping for `JSON.stringify` (quote, backslash and the
common control characters; other characters pass through). -/
def jsonEscapeChar (c : Char) : String :=
  if c = '\\' then "\\\\"
  else if c = '"' then "\\\""
  else if c = '\n' then "\\n"
  else if c = '\t' then "\\t"
  else if c = '\r' then "\\r"
  else String.singleton c

/-- Escape a whole string for JSON output. -/
def jsonEscape (s : String) : String :=
  String.join (s.toList.map jsonEscapeChar)

mutual

/-- `JSON.stringify`.  The scripts call it both with and without the
`null, 2` pretty-printing arguments; the indentation whitespace is elided
here (no claim depends on layout, only on which data is serialized).
A top-level `undefined` cannot arise at the call sites (all arguments are
parsed JSON or object literals); inside an object, fields holding
`undefined` are omitted, and inside an array `undefined` serializes as
`null`, as in JavaScript. -/
def stringify : Js → String
  | .undefined => "null"
  | .null => "null"
  | .bool b => if b then "true" else "false"
  | .num n => toString n
  | .str s => "\"" ++ jsonEscape s ++ "\""
  | .arr elems => "[" ++ stringifyElems elems ++ "]"
  | .obj fields => "\x7b" ++ stringifyFields fields ++ "\x7d"

/-- Array elements of `JSON.stringify`, comma-separated. -/
def stringifyElems : List Js → String
  | [] => ""
  | [v] => stringify v
  | v :: rest => stringify v ++ "," ++ stringifyElems rest

/-- Object fields of `JSON.stringify`, comma-separated; `undefined`
fields are omitted. -/
def stringifyFields : List (String × Js) → String
  | [] => ""
  | (_, .undefined) :: rest => stringifyFields rest
  | [(k, v)] => "\"" ++ jsonEscape k ++ "\":" ++ stringify v
  | (k, v) :: rest =>
    "\"" ++ jsonEscape k ++ "\":" ++ stringify v ++ "," ++ stringifyFields rest

end

/-- An outbound HTTP request as issued by `fetch` in these scripts:
URL, method, and the serialized JSON body when one is sent. -/
structure HttpRequest where
  url : String
  method : String
  body : Option String
deriving DecidableEq

/-- The part of a `fetch` response the handlers inspect: the `ok` flag,
the `statusText`, and the outcome of `.json()` — either a parsed `Js`
value or a thrown parse error (malformed body). -/
structure HttpResponse where
  ok : Bool
  statusText : String
  json : Except String Js

/-- Outcome of one `fetch` call: a response, or a thrown network
exception (carried as its message). -/
inductive FetchOutcome where
  | success (resp : HttpResponse) : FetchOutcome
  | thrown (msg : String) : FetchOutcome

/-- The network oracle: what the outside world answers to each request.
A handler making several requests consults the same oracle in order. -/
def Net : Type := HttpRequest → FetchOutcome

/-- Outcome of one Gemini SDK `generateContent` call:
`result.response.text()` on success, or a thrown exception. -/
inductive GenOutcome where
  | success (text : String) : GenOutcome
  | thrown (msg : String) : GenOutcome

/-- The Gemini SDK oracle: given the API key, the model identifier and
the prompt, what `generateContent` produces. -/
def GenAi : Type := String → String → String → GenOutcome

/-- One attempted outbound call, for the per-invocation trace:
an HTTP `fetch`, or a Gemini SDK `generateContent` call
(key, model, prompt). -/
inductive OutboundCall where
  | http (req : HttpRequest) : OutboundCall
  | sdkGenerate (apiKey model prompt : String) : OutboundCall
deriving DecidableEq

/-- One content block of a tool result.  Only the `"text"` kind appears
in these scripts; the payload is kept as a `Js` value because
`generate-commit-message` places a raw (unvalidated) property read there. -/
inductive ContentBlock where
  | text (payload : Js) : ContentBlock

/-- The normalized response envelope every handler returns:
an ordered sequence of content blocks. -/
structure ToolResult where
  content : List ContentBlock

/-- What an invocation of a handler produces at its boundary:
a returned `ToolResult`, or an exception thrown past the boundary. -/
inductive HandlerOutcome where
  | result (r : ToolResult) : HandlerOutcome
  | thrown (msg : String) : HandlerOutcome

/-- JavaScript truthiness of an optional environment string:
`undefined` and the empty string are falsy. -/
def jsTruthyStr : Option String → Bool
  | none => false
  | some s => s ≠ ""

/-!
## The "Anthony" server (`src/unnamed/part_000`, first script)
-/

/-- The environment variables the first `part_000` script reads:
`GEMINI_API_KEY` and `GEMINI_API_MODEL` (each possibly unset). -/
structure GeminiEnv where
  geminiApiKey : Option String
  geminiApiModel : Option String

/-- The tools the Anthony server registers at startup. -/
def anthonyServerTools : List String := ["ask-anthony", "generate-commit-message"]

/-- Module-level startup of the Anthony script: nothing at module top
reads or checks an environment variable, so startup never throws for a
missing variable; the server registers its two tools unconditionally. -/
def anthonyStartup (_env : GeminiEnv) : Except String (List String) :=
  .ok anthonyServerTools

/-- The `ask-anthony` handler.  The `GEMINI_API_KEY` check sits before
the `try`, so a falsy key throws past the handler boundary; the
`generateContent` call sits inside the `try`, whose catch logs the error
and returns an empty-content result.  `GEMINI_API_MODEL || ""` collapses
an unset or empty model variable to the empty string. -/
def askAnthony (env : GeminiEnv) (genAi : GenAi) (prompt : String) :
    HandlerOutcome × List OutboundCall × List String :=
  if !jsTruthyStr env.geminiApiKey then
    (.thrown "GEMINI_API_KEY environment variable is required. To run the agent set this environment variable. See README.",
      [], [])
  else
    let apiKey := env.geminiApiKey.getD ""
    let model := env.geminiApiModel.getD ""
    match genAi apiKey model prompt with
    | .success txt =>
      (.result ⟨[.text (.str txt)]⟩, [.sdkGenerate apiKey model prompt], [])
    | .thrown e =>
      (.result ⟨[]⟩, [.sdkGenerate apiKey model prompt],
        ["Error in Gemini tool: " ++ e])

/-- The hard-coded API URL of `generate-commit-message`. -/
def gcmApiUrl : String := "https://aip-api.test.rp.foc.zone/swagger/index.html#/Chat"

/-- The hard-coded API version of `generate-commit-message`. -/
def gcmVersion : String := "v1"

/-- The initiate request of `generate-commit-message`:
POST with the prompt as a JSON body. -/
def gcmInitiateRequest (prompt : String) : HttpRequest where
  url := gcmApiUrl ++ "/post_api_" ++ gcmVersion ++ "_chat_initiatechat"
  method := "POST"
  body := some (stringify (.obj [("prompt", .str prompt)]))

/-- The fetch request of `generate-commit-message`: GET with the
session identifier interpolated into the URL. -/
def gcmFetchRequest (sessionId : Js) : HttpRequest where
  url := gcmApiUrl ++ "/get_api_" ++ gcmVersion ++ "_chat_getresponse_" ++ jsInterp sessionId
  method := "GET"
  body := none

/-- The `try` body of the `generate-commit-message` handler: initiate the
chat session, read `SessionId` from the initiate response body without
validation, fetch the response for that session, and read
`fetchData.response.text` into a single text content block.  Every
attempted `fetch` is recorded in the trace, failing or not. -/
def generateCommitMessageTry (net : Net) (prompt : String) :
    Except String ToolResult × List OutboundCall :=
  let initReq := gcmInitiateRequest prompt
  match net initReq with
  | .thrown e => (.error e, [.http initReq])
  | .success initiateResponse =>
    if !initiateResponse.ok then
      (.error "Failed to initiate chat session", [.http initReq])
    else
      match initiateResponse.json with
      | .error e => (.error e, [.http initReq])
      | .ok initiateData =>
        match jsGet initiateData "SessionId" with
        | .error e => (.error e, [.http initReq])
        | .ok sessionId =>
          let getReq := gcmFetchRequest sessionId
          match net getReq with
          | .thrown e => (.error e, [.http initReq, .http getReq])
          | .success fetchResponse =>
            if !fetchResponse.ok then
              (.error "Failed to fetch chat response", [.http initReq, .http getReq])
            else
              match fetchResponse.json with
              | .error e => (.error e, [.http initReq, .http getReq])
              | .ok fetchData =>
                match jsGet fetchData "response" with
                | .error e => (.error e, [.http initReq, .http getReq])
                | .ok responseField =>
                  match jsGet responseField "text" with
                  | .error e => (.error e, [.http initReq, .http getReq])
                  | .ok commitMessage =>
                    (.ok ⟨[.text commitMessage]⟩, [.http initReq, .http getReq])

/-- The `generate-commit-message` handler: the `try` body above wrapped
in the catch branch, which logs the error and returns an empty-content
result. -/
def generateCommitMessage (net : Net) (prompt : String) :
    HandlerOutcome × List OutboundCall × List String :=
  match generateCommitMessageTry net prompt with
  | (.ok r, trace) => (.result r, trace, [])
  | (.error e, trace) =>
    (.result ⟨[]⟩, trace, ["Error in generate-commit-message tool: " ++ e])

/-!
## The "gemini" server (`src/unnamed/part_000`, second script)
-/

/-- The hard-coded model identifier of the `gemini` tool. -/
def geminiToolModel : String := "tunedModels/engineeringagent-kz2tf4jvrlw6"

/-- The `gemini` tool handler: a hard-coded `Placeholder` API key, a
hard-coded tuned model, and no `try`/`catch` — a thrown `generateContent`
failure propagates past the handler boundary.  (`console.log` of the
response object on success goes to standard output and is not part of the
diagnostic error log.) -/
def geminiTool (genAi : GenAi) (prompt : String) :
    HandlerOutcome × List OutboundCall × List String :=
  match genAi "Placeholder" geminiToolModel prompt with
  | .success txt =>
    (.result ⟨[.text (.str txt)]⟩, [.sdkGenerate "Placeholder" geminiToolModel prompt], [])
  | .thrown e =>
    (.thrown e, [.sdkGenerate "Placeholder" geminiToolModel prompt], [])

/-!
## The navigator server (`src/mcp-servers/fine-tuned/src/navigator.ts`)
-/

/-- Module-level startup of the navigator script: it reads
`NAVIGATOR_API_BASE_URL` and throws before registering any tool when the
value is falsy (unset or empty); otherwise the base URL is fixed for the
process lifetime. -/
def navigatorStartup (navigatorApiBaseUrl : Option String) : Except String String :=
  if !jsTruthyStr navigatorApiBaseUrl then
    .error "NAVIGATOR_API_BASE_URL is not defined in the environment variables."
  else
    .ok (navigatorApiBaseUrl.getD "")

/-- The tools the navigator server registers, in registration order,
once startup has passed the environment check. -/
def navigatorServerTools : List String := ["agent-query", "chat", "rag-query"]

/-- Full navigator startup: the environment check, then the registered
tool list paired with the validated base URL. -/
def navigatorServerStart (navigatorApiBaseUrl : Option String) :
    Except String (String × List String) :=
  (navigatorStartup navigatorApiBaseUrl).map fun baseUrl => (baseUrl, navigatorServerTools)

/-- The `sender` enumeration shared by the `agent-query` and `chat`
schemas: `z.enum(["UI", "API", "Mobile", "Bot", "IntegrationTest", "UnitTest"])`. -/
inductive Sender where
  | UI | API | Mobile | Bot | IntegrationTest | UnitTest
deriving DecidableEq

/-- The wire string of a `sender` tag. -/
def senderString : Sender → String
  | .UI => "UI"
  | .API => "API"
  | .Mobile => "Mobile"
  | .Bot => "Bot"
  | .IntegrationTest => "IntegrationTest"
  | .UnitTest => "UnitTest"

/-- Validated input of the `agent-query` and `chat` tools (the two
schemas are declared field-for-field identically in the source). -/
structure NavChatInput where
  applicationId : String
  modelId : Int
  prompt : String
  sender : Sender
  senderId : String
  userId : String
deriving DecidableEq

/-- The JSON body the `agent-query` and `chat` handlers POST:
`JSON.stringify` of the six validated fields in declaration order. -/
def navChatBody (i : NavChatInput) : String :=
  stringify (.obj [
    ("applicationId", .str i.applicationId),
    ("modelId", .num i.modelId),
    ("prompt", .str i.prompt),
    ("sender", .str (senderString i.sender)),
    ("senderId", .str i.senderId),
    ("userId", .str i.userId)])

/-- The `try` body of the `agent-query` handler: one POST to
`/agent/query`; a non-ok status or a JSON parse failure throws, a parsed
body is serialized into a single text content block. -/
def agentQueryTry (navigatorApiBaseUrl : String) (net : Net) (i : NavChatInput) :
    Except String ToolResult × List OutboundCall :=
  let req : HttpRequest :=
    { url := navigatorApiBaseUrl ++ "/agent/query"
      method := "POST"
      body := some (navChatBody i) }
  match net req with
  | .thrown e => (.error e, [.http req])
  | .success response =>
    if !response.ok then
      (.error ("Failed to query Navigator API: " ++ response.statusText), [.http req])
    else
      match response.json with
      | .error e => (.error e, [.http req])
      | .ok data => (.ok ⟨[.text (.str (stringify data))]⟩, [.http req])

/-- The `agent-query` handler: the `try` body wrapped in the catch
branch, which logs the error and returns one fixed error text block. -/
def agentQuery (navigatorApiBaseUrl : String) (net : Net) (i : NavChatInput) :
    HandlerOutcome × List OutboundCall × List String :=
  match agentQueryTry navigatorApiBaseUrl net i with
  | (.ok r, trace) => (.result r, trace, [])
  | (.error e, trace) =>
    (.result ⟨[.text (.str "Error querying Navigator API.")]⟩, trace,
      ["Error in agent-query tool: " ++ e])

/-- The initiate request of the `chat` handler. -/
def chatInitiateRequest (navigatorApiBaseUrl : String) (i : NavChatInput) : HttpRequest where
  url := navigatorApiBaseUrl ++ "/chat/initiatechat"
  method := "POST"
  body := some (navChatBody i)

/-- The get-response request of the `chat` handler: GET with the session
identifier interpolated into the URL. -/
def chatGetResponseRequest (navigatorApiBaseUrl : String) (sessionId : Js) : HttpRequest where
  url := navigatorApiBaseUrl ++ "/chat/getresponse/" ++ jsInterp sessionId
  method := "GET"
  body := none

/-- The `try` body of the `chat` handler: POST `/chat/initiatechat`,
destructure `sessionId` from the parsed initiate body (destructuring a
`null`/`undefined` body throws, any other shape yields the property or
`undefined`), then GET `/chat/getresponse/` with that session id
interpolated, and serialize the parsed chat data into one text block. -/
def chatTry (navigatorApiBaseUrl : String) (net : Net) (i : NavChatInput) :
    Except String ToolResult × List OutboundCall :=
  let initReq := chatInitiateRequest navigatorApiBaseUrl i
  match net initReq with
  | .thrown e => (.error e, [.http initReq])
  | .success initiateResponse =>
    if !initiateResponse.ok then
      (.error ("Failed to initiate chat: " ++ initiateResponse.statusText), [.http initReq])
    else
      match initiateResponse.json with
      | .error e => (.error e, [.http initReq])
      | .ok initiateData =>
        match jsGet initiateData "sessionId" with
        | .error e => (.error e, [.http initReq])
        | .ok sessionId =>
          let getReq := chatGetResponseRequest navigatorApiBaseUrl sessionId
          match net getReq with
          | .thrown e => (.error e, [.http initReq, .http getReq])
          | .success fetchResponse =>
            if !fetchResponse.ok then
              (.error ("Failed to fetch chat response: " ++ fetchResponse.statusText),
                [.http initReq, .http getReq])
            else
              match fetchResponse.json with
              | .error e => (.error e, [.http initReq, .http getReq])
              | .ok chatData =>
                (.ok ⟨[.text (.str (stringify chatData))]⟩, [.http initReq, .http getReq])

/-- The `chat` handler: the `try` body wrapped in the catch branch,
which logs the error and returns one fixed error text block. -/
def chat (navigatorApiBaseUrl : String) (net : Net) (i : NavChatInput) :
    HandlerOutcome × List OutboundCall × List String :=
  match chatTry navigatorApiBaseUrl net i with
  | (.ok r, trace) => (.result r, trace, [])
  | (.error e, trace) =>
    (.result ⟨[.text (.str "Error occurred during the chat process.")]⟩, trace,
      ["Error in chat tool: " ++ e])

/-- The `try` body of the `rag-query` handler: one POST to `/rag/query`;
on success the answer and the serialized references are combined into a
single text block via template-literal interpolation. -/
def ragQueryTry (navigatorApiBaseUrl : String) (net : Net) (prompt : String) :
    Except String ToolResult × List OutboundCall :=
  let req : HttpRequest :=
    { url := navigatorApiBaseUrl ++ "/rag/query"
      method := "POST"
      body := some (stringify (.obj [("prompt", .str prompt)])) }
  match net req with
  | .thrown e => (.error e, [.http req])
  | .success response =>
    if !response.ok then
      (.error ("Failed to perform RAG query: " ++ response.statusText), [.http req])
    else
      match response.json with
      | .error e => (.error e, [.http req])
      | .ok ragData =>
        match jsGet ragData "answer" with
        | .error e => (.error e, [.http req])
        | .ok answer =>
          match jsGet ragData "references" with
          | .error e => (.error e, [.http req])
          | .ok references =>
            (.ok ⟨[.text (.str ("Answer: " ++ jsInterp answer ++
              "\n\nReferences: " ++ stringify references))]⟩, [.http req])

/-- The `rag-query` handler: the `try` body wrapped in the catch branch,
which logs the error and returns one fixed error text block. -/
def ragQuery (navigatorApiBaseUrl : String) (net : Net) (prompt : String) :
    HandlerOutcome × List OutboundCall × List String :=
  match ragQueryTry navigatorApiBaseUrl net prompt with
  | (.ok r, trace) => (.result r, trace, [])
  | (.error e, trace) =>
    (.result ⟨[.text (.str "Error occurred during the RAG query.")]⟩, trace,
      ["Error in rag-query tool: " ++ e])

/-!
## Schema validation (the zod schemas each tool declares)
-/

/-- The raw argument mapping of a tool invocation, before validation. -/
def RawArgs : Type := List (String × Js)

/-- `z.string()`: accepts exactly string values (any length). -/
def zString : Option Js → Option String
  | some (.str s) => some s
  | _ => none

/-- `z.string().min(1)`: a string of length at least one. -/
def zStringMin1 (v : Option Js) : Option String :=
  match zString v with
  | some s => if 1 ≤ s.length then some s else none
  | none => none

/-- Hexadecimal digit (either case), for the UUID shape check. -/
def isHexDigit (c : Char) : Bool :=
  c.isDigit || (Char.ofNat 97 ≤ c && c ≤ Char.ofNat 102) ||
    (Char.ofNat 65 ≤ c && c ≤ Char.ofNat 70)

/-- Split a character list at every dash, keeping empty groups: the
dash-separated view of a candidate UUID. -/
def splitDashes : List Char → List (List Char)
  | [] => [[]]
  | c :: rest =>
    if c = '-' then [] :: splitDashes rest
    else
      match splitDashes rest with
      | [] => [[c]]
      | g :: gs => (c :: g) :: gs

/-- UUID shape: five dash-separated hexadecimal groups of lengths
8-4-4-4-12, as `z.string().uuid()` requires. -/
def isUuid (s : String) : Bool :=
  match splitDashes s.toList with
  | [a, b, c, d, e] =>
    a.length == 8 && b.length == 4 && c.length == 4 && d.length == 4 &&
      e.length == 12 && (a ++ b ++ c ++ d ++ e).all isHexDigit
  | _ => false

/-- `z.string().uuid()`: a UUID-shaped string. -/
def zStringUuid (v : Option Js) : Option String :=
  match zString v with
  | some s => if isUuid s then some s else none
  | none => none

/-- `z.number().int().min(lo).max(hi)`: an integral number within the
inclusive bounds. -/
def zNumberIntRange (lo hi : Int) : Option Js → Option Int
  | some (.num n) => if lo ≤ n && n ≤ hi then some n else none
  | _ => none

/-- `z.enum(["UI", "API", "Mobile", "Bot", "IntegrationTest", "UnitTest"])`. -/
def zEnumSender (v : Option Js) : Option Sender :=
  match zString v with
  | some "UI" => some .UI
  | some "API" => some .API
  | some "Mobile" => some .Mobile
  | some "Bot" => some .Bot
  | some "IntegrationTest" => some .IntegrationTest
  | some "UnitTest" => some .UnitTest
  | _ => none

/-- The one-field schema of `ask-anthony`, `generate-commit-message` and
`gemini`: `prompt: z.string()` — any string, with no minimum length. -/
def parsePromptAny (raw : RawArgs) : Option String :=
  zString (raw.lookup "prompt")

/-- The one-field schema of `rag-query`:
`prompt: z.string().min(1)` — a non-empty string. -/
def parsePromptMin1 (raw : RawArgs) : Option String :=
  zStringMin1 (raw.lookup "prompt")

/-- The six-field schema declared (field-for-field identically) by the
`agent-query` and `chat` tools: UUID-shaped `applicationId` and `userId`,
an integral `modelId` in `[1, 32767]`, a non-empty `prompt`, an
enumerated `sender`, and a non-empty `senderId`. -/
def parseNavChatArgs (raw : RawArgs) : Option NavChatInput :=
  match zStringUuid (raw.lookup "applicationId") with
  | none => none
  | some applicationId =>
    match zNumberIntRange 1 32767 (raw.lookup "modelId") with
    | none => none
    | some modelId =>
      match zStringMin1 (raw.lookup "prompt") with
      | none => none
      | some prompt =>
        match zEnumSender (raw.lookup "sender") with
        | none => none
        | some sender =>
          match zStringMin1 (raw.lookup "senderId") with
          | none => none
          | some senderId =>
            match zStringUuid (raw.lookup "userId") with
            | none => none
            | some userId =>
              some ⟨applicationId, modelId, prompt, sender, senderId, userId⟩

/-!
## Server dispatch
-/

/-- The registry-level outcome of one invocation: the handler's outcome
when the arguments validated, or a protocol-level fault (the handler is
never invoked on a fault, so the trace and log stay empty). -/
inductive DispatchOutcome where
  | handled (o : HandlerOutcome) : DispatchOutcome
  | invalidArguments : DispatchOutcome
  | unknownTool : DispatchOutcome

/-- Dispatch of one invocation on the Anthony server: look the tool up
by name, validate the raw arguments against its schema, and only then run
its handler. -/
def anthonyDispatch (env : GeminiEnv) (genAi : GenAi) (net : Net)
    (toolName : String) (raw : RawArgs) :
    DispatchOutcome × List OutboundCall × List String :=
  if toolName = "ask-anthony" then
    match parsePromptAny raw with
    | none => (.invalidArguments, [], [])
    | some prompt =>
      let (o, trace, log) := askAnthony env genAi prompt
      (.handled o, trace, log)
  else if toolName = "generate-commit-message" then
    match parsePromptAny raw with
    | none => (.invalidArguments, [], [])
    | some prompt =>
      let (o, trace, log) := generateCommitMessage net prompt
      (.handled o, trace, log)
  else (.unknownTool, [], [])

/-- Dispatch of one invocation on the gemini server. -/
def geminiDispatch (genAi : GenAi) (toolName : String) (raw : RawArgs) :
    DispatchOutcome × List OutboundCall × List String :=
  if toolName = "gemini" then
    match parsePromptAny raw with
    | none => (.invalidArguments, [], [])
    | some prompt =>
      let (o, trace, log) := geminiTool genAi prompt
      (.handled o, trace, log)
  else (.unknownTool, [], [])

/-- Dispatch of one invocation on the navigator server. -/
def navigatorDispatch (navigatorApiBaseUrl : String) (net : Net)
    (toolName : String) (raw : RawArgs) :
    DispatchOutcome × List OutboundCall × List String :=
  if toolName = "agent-query" then
    match parseNavChatArgs raw with
    | none => (.invalidArguments, [], [])
    | some i =>
      let (o, trace, log) := agentQuery navigatorApiBaseUrl net i
      (.handled o, trace, log)
  else if toolName = "chat" then
    match parseNavChatArgs raw with
    | none => (.invalidArguments, [], [])
    | some i =>
      let (o, trace, log) := chat navigatorApiBaseUrl net i
      (.handled o, trace, log)
  else if toolName = "rag-query" then
    match parsePromptMin1 raw with
    | none => (.invalidArguments, [], [])
    | some prompt =>
      let (o, trace, log) := ragQuery navigatorApiBaseUrl net prompt
      (.handled o, trace, log)
  else (.unknownTool, [], [])

/-- A sequence of navigator invocations run one after the other against
the process-wide shared resources: the read-only base URL and the
append-only diagnostic log, which is threaded through as the only piece
of state any invocation writes.  Returns the per-invocation outcomes in
order and the final log. -/
def navigatorRunSeq (navigatorApiBaseUrl : String) (net : Net) :
    List (String × RawArgs) → List String → List DispatchOutcome × List String
  | [], log => ([], log)
  | (toolName, raw) :: rest, log =>
    let (o, _trace, l) := navigatorDispatch navigatorApiBaseUrl net toolName raw
    let (os, finalLog) := navigatorRunSeq navigatorApiBaseUrl net rest (log ++ l)
    (o :: os, finalLog)

/-- A sequence of Anthony-server invocations run one after the other
against the process-wide shared resources: the read-only environment and
the append-only diagnostic log, which is threaded through as the only
piece of state any invocation writes. -/
def anthonyRunSeq (env : GeminiEnv) (genAi : GenAi) (net : Net) :
    List (String × RawArgs) → List String → List DispatchOutcome × List String
  | [], log => ([], log)
  | (toolName, raw) :: rest, log =>
    let (o, _trace, l) := anthonyDispatch env genAi net toolName raw
    let (os, finalLog) := anthonyRunSeq env genAi net rest (log ++ l)
    (o :: os, finalLog)

/-- A sequence of gemini-server invocations run one after the other; the
append-only diagnostic log is threaded through as the only piece of state
any invocation writes. -/
def geminiRunSeq (genAi : GenAi) :
    List (String × RawArgs) → List String → List DispatchOutcome × List String
  | [], log => ([], log)
  | (toolName, raw) :: rest, log =>
    let (o, _trace, l) := geminiDispatch genAi toolName raw
    let (os, finalLog) := geminiRunSeq genAi rest (log ++ l)
    (o :: os, finalLog)

/-!
## Helper lemmas: the catch wrappers
-/

/-- A succeeding `try` body of `generate-commit-message` is returned as is. -/
theorem generateCommitMessage_try_ok (net : Net) (prompt : String)
    (r : ToolResult) (t : List OutboundCall)
    (h : generateCommitMessageTry net prompt = (.ok r, t)) :
    generateCommitMessage net prompt = (.result r, t, []) := by
  unfold generateCommitMessage
  rw [h]

/-- A failing `try` body of `generate-commit-message` is caught: logged
and converted into an empty-content result. -/
theorem generateCommitMessage_try_error (net : Net) (prompt : String)
    (e : String) (t : List OutboundCall)
    (h : generateCommitMessageTry net prompt = (.error e, t)) :
    generateCommitMessage net prompt =
      (.result ⟨[]⟩, t, ["Error in generate-commit-message tool: " ++ e]) := by
  unfold generateCommitMessage
  rw [h]

/-- A succeeding `try` body of `agent-query` is returned as is. -/
theorem agentQuery_try_ok (baseUrl : String) (net : Net) (i : NavChatInput)
    (r : ToolResult) (t : List OutboundCall)
    (h : agentQueryTry baseUrl net i = (.ok r, t)) :
    agentQuery baseUrl net i = (.result r, t, []) := by
  unfold agentQuery
  rw [h]

/-- A failing `try` body of `agent-query` is caught: logged and converted
into the fixed error text block. -/
theorem agentQuery_try_error (baseUrl : String) (net : Net) (i : NavChatInput)
    (e : String) (t : List OutboundCall)
    (h : agentQueryTry baseUrl net i = (.error e, t)) :
    agentQuery baseUrl net i =
      (.result ⟨[.text (.str "Error querying Navigator API.")]⟩, t,
        ["Error in agent-query tool: " ++ e]) := by
  unfold agentQuery
  rw [h]

/-- A succeeding `try` body of `chat` is returned as is. -/
theorem chat_try_ok (baseUrl : String) (net : Net) (i : NavChatInput)
    (r : ToolResult) (t : List OutboundCall)
    (h : chatTry baseUrl net i = (.ok r, t)) :
    chat baseUrl net i = (.result r, t, []) := by
  unfold chat
  rw [h]

/-- A failing `try` body of `chat` is caught: logged and converted into
the fixed error text block. -/
theorem chat_try_error (baseUrl : String) (net : Net) (i : NavChatInput)
    (e : String) (t : List OutboundCall)
    (h : chatTry baseUrl net i = (.error e, t)) :
    chat baseUrl net i =
      (.result ⟨[.text (.str "Error occurred during the chat process.")]⟩, t,
        ["Error in chat tool: " ++ e]) := by
  unfold chat
  rw [h]

/-- A succeeding `try` body of `rag-query` is returned as is. -/
theorem ragQuery_try_ok (baseUrl : String) (net : Net) (prompt : String)
    (r : ToolResult) (t : List OutboundCall)
    (h : ragQueryTry baseUrl net prompt = (.ok r, t)) :
    ragQuery baseUrl net prompt = (.result r, t, []) := by
  unfold ragQuery
  rw [h]

/-- A failing `try` body of `rag-query` is caught: logged and converted
into the fixed error text block. -/
theorem ragQuery_try_error (baseUrl : String) (net : Net) (prompt : String)
    (e : String) (t : List OutboundCall)
    (h : ragQueryTry baseUrl net prompt = (.error e, t)) :
    ragQuery baseUrl net prompt =
      (.result ⟨[.text (.str "Error occurred during the RAG query.")]⟩, t,
        ["Error in rag-query tool: " ++ e]) := by
  unfold ragQuery
  rw [h]

/-- A falsy `GEMINI_API_KEY` makes `ask-anthony` throw its descriptive
message before any outbound call. -/
theorem askAnthony_missing_key (env : GeminiEnv) (genAi : GenAi) (prompt : String)
    (h : jsTruthyStr env.geminiApiKey = false) :
    askAnthony env genAi prompt =
      (.thrown "GEMINI_API_KEY environment variable is required. To run the agent set this environment variable. See README.",
        [], []) := by
  unfold askAnthony
  rw [h]
  rfl

/-- With a truthy key, a thrown `generateContent` failure is caught by
`ask-anthony`: logged and converted into an empty-content result. -/
theorem askAnthony_gen_thrown (env : GeminiEnv) (genAi : GenAi) (prompt e : String)
    (hkey : jsTruthyStr env.geminiApiKey = true)
    (hgen : genAi (env.geminiApiKey.getD "") (env.geminiApiModel.getD "") prompt = .thrown e) :
    askAnthony env genAi prompt =
      (.result ⟨[]⟩,
        [.sdkGenerate (env.geminiApiKey.getD "") (env.geminiApiModel.getD "") prompt],
        ["Error in Gemini tool: " ++ e]) := by
  unfold askAnthony
  rw [hkey]
  simp only [Bool.not_true, Bool.false_eq_true, if_false, hgen]

/-- With a truthy key, a successful `generateContent` call makes
`ask-anthony` return one text block with the generated text. -/
theorem askAnthony_gen_success (env : GeminiEnv) (genAi : GenAi) (prompt txt : String)
    (hkey : jsTruthyStr env.geminiApiKey = true)
    (hgen : genAi (env.geminiApiKey.getD "") (env.geminiApiModel.getD "") prompt = .success txt) :
    askAnthony env genAi prompt =
      (.result ⟨[.text (.str txt)]⟩,
        [.sdkGenerate (env.geminiApiKey.getD "") (env.geminiApiModel.getD "") prompt],
        []) := by
  unfold askAnthony
  rw [hkey]
  simp only [Bool.not_true, Bool.false_eq_true, if_false, hgen]

/-!
## Claim C1
-/

/-- C1 counterexample: the claim says every caught outbound failure is
converted into a ToolResult whose content sequence is empty; but the
`rag-query` handler, on a thrown network failure, returns a ToolResult
with one (non-empty) error text block. -/
theorem C1_counterexample :
    (ragQuery "https://navigator.example/api/v1"
        (fun _ => .thrown "fetch failed") "hello").1 =
      .result ⟨[.text (.str "Error occurred during the RAG query.")]⟩ ∧
    [ContentBlock.text (.str "Error occurred during the RAG query.")] ≠ [] := by
  exact ⟨rfl, by simp⟩

/-- C1 (amended): every handler that wraps its outbound operation in a
try/catch — `ask-anthony`, `generate-commit-message`, `agent-query`,
`chat`, `rag-query` — converts a failing try body into a returned
ToolResult plus one diagnostic log entry, never re-throwing; `ask-anthony`
and `generate-commit-message` return empty content, while the three
navigator tools return a single fixed error text block (the `gemini` tool
has no catch at all and is outside this amended statement). -/
theorem C1_amended :
    (∀ (env : GeminiEnv) (genAi : GenAi) (prompt e : String),
      jsTruthyStr env.geminiApiKey = true →
      genAi (env.geminiApiKey.getD "") (env.geminiApiModel.getD "") prompt = .thrown e →
      askAnthony env genAi prompt =
        (.result ⟨[]⟩,
          [.sdkGenerate (env.geminiApiKey.getD "") (env.geminiApiModel.getD "") prompt],
          ["Error in Gemini tool: " ++ e])) ∧
    (∀ (net : Net) (prompt e : String) (t : List OutboundCall),
      generateCommitMessageTry net prompt = (.error e, t) →
      generateCommitMessage net prompt =
        (.result ⟨[]⟩, t, ["Error in generate-commit-message tool: " ++ e])) ∧
    (∀ (baseUrl : String) (net : Net) (i : NavChatInput) (e : String) (t : List OutboundCall),
      agentQueryTry baseUrl net i = (.error e, t) →
      agentQuery baseUrl net i =
        (.result ⟨[.text (.str "Error querying Navigator API.")]⟩, t,
          ["Error in agent-query tool: " ++ e])) ∧
    (∀ (baseUrl : String) (net : Net) (i : NavChatInput) (e : String) (t : List OutboundCall),
      chatTry baseUrl net i = (.error e, t) →
      chat baseUrl net i =
        (.result ⟨[.text (.str "Error occurred during the chat process.")]⟩, t,
          ["Error in chat tool: " ++ e])) ∧
    (∀ (baseUrl : String) (net : Net) (prompt e : String) (t : List OutboundCall),
      ragQueryTry baseUrl net prompt = (.error e, t) →
      ragQuery baseUrl net prompt =
        (.result ⟨[.text (.str "Error occurred during the RAG query.")]⟩, t,
          ["Error in rag-query tool: " ++ e])) := by
  exact ⟨fun env genAi prompt e hkey hgen => askAnthony_gen_thrown env genAi prompt e hkey hgen,
    fun net prompt e t h => generateCommitMessage_try_error net prompt e t h,
    fun baseUrl net i e t h => agentQuery_try_error baseUrl net i e t h,
    fun baseUrl net i e t h => chat_try_error baseUrl net i e t h,
    fun baseUrl net prompt e t h => ragQuery_try_error baseUrl net prompt e t h⟩

/-- C1 witness: the amended statement applied at a concrete failing
network for `rag-query` and a concrete thrown SDK call for `ask-anthony`. -/
theorem C1_witness :
    ragQuery "https://nav.example" (fun _ => .thrown "net down") "hi" =
      (.result ⟨[.text (.str "Error occurred during the RAG query.")]⟩,
        [.http ⟨"https://nav.example/rag/query", "POST",
          some "\x7b\"prompt\":\"hi\"\x7d"⟩],
        ["Error in rag-query tool: net down"]) ∧
    askAnthony ⟨some "key", some "model"⟩ (fun _ _ _ => .thrown "quota") "hi" =
      (.result ⟨[]⟩, [.sdkGenerate "key" "model" "hi"],
        ["Error in Gemini tool: quota"]) := by
  exact ⟨C1_amended.2.2.2.2 "https://nav.example" (fun _ => .thrown "net down") "hi"
      "net down" [.http ⟨"https://nav.example/rag/query", "POST",
        some "\x7b\"prompt\":\"hi\"\x7d"⟩] rfl,
    C1_amended.1 ⟨some "key", some "model"⟩ (fun _ _ _ => .thrown "quota") "hi" "quota"
      rfl rfl⟩

/-!
## Claim C2
-/

/-- C2 counterexample: the claim says no tool handler ever throws past
the handler boundary on schema-valid input; but the `gemini` tool has no
try/catch, so a thrown `generateContent` failure propagates out of the
handler even though the input satisfied its schema. -/
theorem C2_counterexample :
    parsePromptAny [("prompt", Js.str "hello")] = some "hello" ∧
    (geminiTool (fun _ _ _ => .thrown "ECONNREFUSED") "hello").1 =
      .thrown "ECONNREFUSED" := by
  exact ⟨rfl, rfl⟩

/-- C2 (amended): every handler except the `gemini` tool yields a
ToolResult for every outcome of its outbound operation — `ask-anthony`
provided the API-key environment variable is truthy (a falsy key throws
before the try) — while the `gemini` tool propagates a thrown SDK
failure past the handler boundary. -/
theorem C2_amended :
    (∀ (env : GeminiEnv) (genAi : GenAi) (prompt : String),
      jsTruthyStr env.geminiApiKey = true →
      ∃ r, (askAnthony env genAi prompt).1 = .result r) ∧
    (∀ (net : Net) (prompt : String),
      ∃ r, (generateCommitMessage net prompt).1 = .result r) ∧
    (∀ (baseUrl : String) (net : Net) (i : NavChatInput),
      ∃ r, (agentQuery baseUrl net i).1 = .result r) ∧
    (∀ (baseUrl : String) (net : Net) (i : NavChatInput),
      ∃ r, (chat baseUrl net i).1 = .result r) ∧
    (∀ (baseUrl : String) (net : Net) (prompt : String),
      ∃ r, (ragQuery baseUrl net prompt).1 = .result r) ∧
    (∀ (genAi : GenAi) (prompt e : String),
      genAi "Placeholder" geminiToolModel prompt = .thrown e →
      (geminiTool genAi prompt).1 = .thrown e) := by
  refine ⟨?_, ?_, ?_, ?_, ?_, ?_⟩
  · intro env genAi prompt hkey
    cases hgen : genAi (env.geminiApiKey.getD "") (env.geminiApiModel.getD "") prompt with
    | success txt =>
      exact ⟨_, by rw [askAnthony_gen_success env genAi prompt txt hkey hgen]⟩
    | thrown e =>
      exact ⟨_, by rw [askAnthony_gen_thrown env genAi prompt e hkey hgen]⟩
  · intro net prompt
    cases h : generateCommitMessageTry net prompt with
    | mk res t =>
      cases res with
      | ok r => exact ⟨r, by rw [generateCommitMessage_try_ok net prompt r t h]⟩
      | error e => exact ⟨_, by rw [generateCommitMessage_try_error net prompt e t h]⟩
  · intro baseUrl net i
    cases h : agentQueryTry baseUrl net i with
    | mk res t =>
      cases res with
      | ok r => exact ⟨r, by rw [agentQuery_try_ok baseUrl net i r t h]⟩
      | error e => exact ⟨_, by rw [agentQuery_try_error baseUrl net i e t h]⟩
  · intro baseUrl net i
    cases h : chatTry baseUrl net i with
    | mk res t =>
      cases res with
      | ok r => exact ⟨r, by rw [chat_try_ok baseUrl net i r t h]⟩
      | error e => exact ⟨_, by rw [chat_try_error baseUrl net i e t h]⟩
  · intro baseUrl net prompt
    cases h : ragQueryTry baseUrl net prompt with
    | mk res t =>
      cases res with
      | ok r => exact ⟨r, by rw [ragQuery_try_ok baseUrl net prompt r t h]⟩
      | error e => exact ⟨_, by rw [ragQuery_try_error baseUrl net prompt e t h]⟩
  · intro genAi prompt e hgen
    unfold geminiTool
    rw [hgen]

/-- C2 witness: the amended statement applied at concrete inputs —
`ask-anthony` with a set key, and the `gemini` tool with a thrown SDK
call. -/
theorem C2_witness :
    (∃ r, (askAnthony ⟨some "key", none⟩ (fun _ _ _ => .thrown "boom") "hi").1 =
      .result r) ∧
    (geminiTool (fun _ _ _ => .thrown "boom") "hi").1 = .thrown "boom" := by
  exact ⟨C2_amended.1 ⟨some "key", none⟩ (fun _ _ _ => .thrown "boom") "hi" rfl,
    C2_amended.2.2.2.2.2 (fun _ _ _ => .thrown "boom") "hi" "boom" rfl⟩

/-!
## Claim C9
-/

/-- C9: on every caught outbound failure, each navigator tool returns a
non-empty content sequence holding exactly one text block whose string is
a fixed constant per tool, independent of the input and of the underlying
error. -/
theorem C9_theorem :
    (∀ (baseUrl : String) (net : Net) (i : NavChatInput) (e : String) (t : List OutboundCall),
      agentQueryTry baseUrl net i = (.error e, t) →
      (agentQuery baseUrl net i).1 =
        .result ⟨[.text (.str "Error querying Navigator API.")]⟩) ∧
    (∀ (baseUrl : String) (net : Net) (i : NavChatInput) (e : String) (t : List OutboundCall),
      chatTry baseUrl net i = (.error e, t) →
      (chat baseUrl net i).1 =
        .result ⟨[.text (.str "Error occurred during the chat process.")]⟩) ∧
    (∀ (baseUrl : String) (net : Net) (prompt e : String) (t : List OutboundCall),
      ragQueryTry baseUrl net prompt = (.error e, t) →
      (ragQuery baseUrl net prompt).1 =
        .result ⟨[.text (.str "Error occurred during the RAG query.")]⟩) ∧
    ([ContentBlock.text (.str "Error querying Navigator API.")] ≠ []) ∧
    ([ContentBlock.text (.str "Error occurred during the chat process.")] ≠ []) ∧
    ([ContentBlock.text (.str "Error occurred during the RAG query.")] ≠ []) := by
  refine ⟨?_, ?_, ?_, by simp, by simp, by simp⟩
  · intro baseUrl net i e t h
    rw [agentQuery_try_error baseUrl net i e t h]
  · intro baseUrl net i e t h
    rw [chat_try_error baseUrl net i e t h]
  · intro baseUrl net prompt e t h
    rw [ragQuery_try_error baseUrl net prompt e t h]

/-- C9 witness: the statement applied at a concrete failing network for
each of the three navigator tools. -/
theorem C9_witness :
    (agentQuery "https://n" (fun _ => .thrown "down")
        ⟨"a", 1, "p", .UI, "s", "u"⟩).1 =
      .result ⟨[.text (.str "Error querying Navigator API.")]⟩ ∧
    (chat "https://n" (fun _ => .thrown "down")
        ⟨"a", 1, "p", .UI, "s", "u"⟩).1 =
      .result ⟨[.text (.str "Error occurred during the chat process.")]⟩ ∧
    (ragQuery "https://n" (fun _ => .thrown "down") "p").1 =
      .result ⟨[.text (.str "Error occurred during the RAG query.")]⟩ := by
  refine ⟨C9_theorem.1 "https://n" (fun _ => .thrown "down")
      ⟨"a", 1, "p", .UI, "s", "u"⟩ "down" _ rfl,
    C9_theorem.2.1 "https://n" (fun _ => .thrown "down")
      ⟨"a", 1, "p", .UI, "s", "u"⟩ "down" _ rfl,
    C9_theorem.2.2.1 "https://n" (fun _ => .thrown "down") "p" "down" _ rfl⟩

/-!
## Claim C4
-/

/-- C4 counterexample: the claim says a missing API key makes the server
fail at startup before any tool is served; but the Anthony server starts
and serves both tools with `GEMINI_API_KEY` unset — the descriptive error
is thrown only when `ask-anthony` is invoked. -/
theorem C4_counterexample :
    anthonyStartup ⟨none, none⟩ = .ok ["ask-anthony", "generate-commit-message"] ∧
    (askAnthony ⟨none, none⟩ (fun _ _ _ => .success "unused") "hi").1 =
      .thrown "GEMINI_API_KEY environment variable is required. To run the agent set this environment variable. See README." := by
  exact ⟨rfl, rfl⟩

/-- C4 (amended): a falsy `NAVIGATOR_API_BASE_URL` throws a descriptive
error at startup before any navigator tool is served; a falsy
`GEMINI_API_KEY` does not prevent startup — the Anthony server serves its
tools regardless — but the `ask-anthony` handler throws a descriptive
error at invocation time with zero outbound calls attempted. -/
theorem C4_amended :
    (∀ env : Option String, jsTruthyStr env = false →
      navigatorServerStart env =
        .error "NAVIGATOR_API_BASE_URL is not defined in the environment variables.") ∧
    (∀ env : GeminiEnv, anthonyStartup env = .ok anthonyServerTools) ∧
    (∀ (env : GeminiEnv) (genAi : GenAi) (prompt : String),
      jsTruthyStr env.geminiApiKey = false →
      askAnthony env genAi prompt =
        (.thrown "GEMINI_API_KEY environment variable is required. To run the agent set this environment variable. See README.",
          [], [])) := by
  refine ⟨?_, fun _ => rfl, ?_⟩
  · intro env h
    unfold navigatorServerStart navigatorStartup
    rw [h]
    rfl
  · intro env genAi prompt h
    exact askAnthony_missing_key env genAi prompt h

/-- C4 witness: the amended statement applied with both variables unset. -/
theorem C4_witness :
    navigatorServerStart none =
      .error "NAVIGATOR_API_BASE_URL is not defined in the environment variables." ∧
    askAnthony ⟨none, none⟩ (fun _ _ _ => .success "unused") "hi" =
      (.thrown "GEMINI_API_KEY environment variable is required. To run the agent set this environment variable. See README.",
        [], []) := by
  exact ⟨C4_amended.1 none rfl,
    C4_amended.2.2 ⟨none, none⟩ (fun _ _ _ => .success "unused") "hi" rfl⟩

/-!
## Claim C5
-/

/-- C5 counterexample: the claim says every tool taking a prompt declares
it non-empty, so an empty prompt never reaches a handler and causes zero
network calls; but `ask-anthony` declares `prompt: z.string()` with no
minimum, so the empty prompt passes validation, the handler runs, and an
outbound SDK call is made with the empty prompt. -/
theorem C5_counterexample :
    parsePromptAny [("prompt", Js.str "")] = some "" ∧
    (anthonyDispatch ⟨some "key", some "model"⟩ (fun _ _ _ => .success "ok")
        (fun _ => .thrown "unused") "ask-anthony" [("prompt", Js.str "")]).2.1 =
      [.sdkGenerate "key" "model" ""] := by
  exact ⟨rfl, rfl⟩

/-- C5 (amended): only the navigator tools declare a non-empty prompt —
`rag-query`, `agent-query` and `chat` reject an empty prompt before the
handler runs, with empty trace and log — while the Gemini-server tools
(`ask-anthony`, `generate-commit-message`, `gemini`) declare
`prompt: z.string()` and accept any string, the empty one included. -/
theorem C5_amended :
    (∀ raw : RawArgs, raw.lookup "prompt" = some (.str "") →
      parsePromptMin1 raw = none ∧ parseNavChatArgs raw = none) ∧
    (∀ (baseUrl : String) (net : Net) (raw : RawArgs), parsePromptMin1 raw = none →
      navigatorDispatch baseUrl net "rag-query" raw = (.invalidArguments, [], [])) ∧
    (∀ (baseUrl : String) (net : Net) (raw : RawArgs), parseNavChatArgs raw = none →
      navigatorDispatch baseUrl net "agent-query" raw = (.invalidArguments, [], []) ∧
      navigatorDispatch baseUrl net "chat" raw = (.invalidArguments, [], [])) ∧
    (∀ s : String, parsePromptAny [("prompt", .str s)] = some s) := by
  refine ⟨?_, ?_, ?_, fun s => rfl⟩
  · intro raw h
    constructor
    · unfold parsePromptMin1
      rw [h]
      rfl
    · unfold parseNavChatArgs
      cases h1 : zStringUuid (raw.lookup "applicationId") with
      | none => rfl
      | some a =>
        cases h2 : zNumberIntRange 1 32767 (raw.lookup "modelId") with
        | none => rfl
        | some m =>
          have hp : zStringMin1 (raw.lookup "prompt") = none := by
            rw [h]
            rfl
          rw [hp]
  · intro baseUrl net raw h
    unfold navigatorDispatch
    rw [if_neg (by decide), if_neg (by decide), if_pos rfl, h]
  · intro baseUrl net raw h
    constructor
    · unfold navigatorDispatch
      rw [if_pos rfl, h]
    · unfold navigatorDispatch
      rw [if_neg (by decide), if_pos rfl, h]

/-- C5 witness: the amended statement applied to the empty prompt. -/
theorem C5_witness :
    parsePromptMin1 [("prompt", Js.str "")] = none ∧
    navigatorDispatch "https://n" (fun _ => .thrown "unused") "rag-query"
      [("prompt", Js.str "")] = (.invalidArguments, [], []) ∧
    parsePromptAny [("prompt", Js.str "")] = some "" := by
  refine ⟨(C5_amended.1 [("prompt", Js.str "")] rfl).1, ?_, C5_amended.2.2.2 ""⟩
  exact C5_amended.2.1 "https://n" (fun _ => .thrown "unused")
    [("prompt", Js.str "")] (C5_amended.1 [("prompt", Js.str "")] rfl).1

/-!
## Claim C8
-/

/-- C8: on each of the three servers — navigator, Anthony and gemini —
running two invocations in sequence, in either order, and under any prior
diagnostic-log state gives each invocation the outcome computed from its
own input alone (with the read-only environment configuration and the
external oracles); no state written by one invocation influences the
other's outcome. -/
theorem C8_theorem :
    (∀ (baseUrl : String) (net : Net) (i1 i2 : String × RawArgs) (log log' : List String),
      (navigatorRunSeq baseUrl net [i1, i2] log).1 =
        [(navigatorDispatch baseUrl net i1.1 i1.2).1,
          (navigatorDispatch baseUrl net i2.1 i2.2).1] ∧
      (navigatorRunSeq baseUrl net [i2, i1] log).1 =
        [(navigatorDispatch baseUrl net i2.1 i2.2).1,
          (navigatorDispatch baseUrl net i1.1 i1.2).1] ∧
      (navigatorRunSeq baseUrl net [i1, i2] log).1 =
        (navigatorRunSeq baseUrl net [i1, i2] log').1) ∧
    (∀ (env : GeminiEnv) (genAi : GenAi) (net : Net) (i1 i2 : String × RawArgs)
        (log log' : List String),
      (anthonyRunSeq env genAi net [i1, i2] log).1 =
        [(anthonyDispatch env genAi net i1.1 i1.2).1,
          (anthonyDispatch env genAi net i2.1 i2.2).1] ∧
      (anthonyRunSeq env genAi net [i2, i1] log).1 =
        [(anthonyDispatch env genAi net i2.1 i2.2).1,
          (anthonyDispatch env genAi net i1.1 i1.2).1] ∧
      (anthonyRunSeq env genAi net [i1, i2] log).1 =
        (anthonyRunSeq env genAi net [i1, i2] log').1) ∧
    (∀ (genAi : GenAi) (i1 i2 : String × RawArgs) (log log' : List String),
      (geminiRunSeq genAi [i1, i2] log).1 =
        [(geminiDispatch genAi i1.1 i1.2).1,
          (geminiDispatch genAi i2.1 i2.2).1] ∧
      (geminiRunSeq genAi [i2, i1] log).1 =
        [(geminiDispatch genAi i2.1 i2.2).1,
          (geminiDispatch genAi i1.1 i1.2).1] ∧
      (geminiRunSeq genAi [i1, i2] log).1 =
        (geminiRunSeq genAi [i1, i2] log').1) := by
  refine ⟨?_, ?_, ?_⟩
  · intro baseUrl net i1 i2 log log'
    obtain ⟨n1, r1⟩ := i1
    obtain ⟨n2, r2⟩ := i2
    refine ⟨?_, ?_, ?_⟩ <;> simp [navigatorRunSeq]
  · intro env genAi net i1 i2 log log'
    obtain ⟨n1, r1⟩ := i1
    obtain ⟨n2, r2⟩ := i2
    refine ⟨?_, ?_, ?_⟩ <;> simp [anthonyRunSeq]
  · intro genAi i1 i2 log log'
    obtain ⟨n1, r1⟩ := i1
    obtain ⟨n2, r2⟩ := i2
    refine ⟨?_, ?_, ?_⟩ <;> simp [geminiRunSeq]

/-!
## Helper lemmas: request traces of the two-step tools
-/

/-- The catch wrapper of `generate-commit-message` does not change the
request trace of its try body. -/
theorem generateCommitMessage_trace (net : Net) (prompt : String) :
    (generateCommitMessage net prompt).2.1 = (generateCommitMessageTry net prompt).2 := by
  unfold generateCommitMessage
  cases h : generateCommitMessageTry net prompt with
  | mk res t => cases res <;> rfl

/-- The catch wrapper of `chat` does not change the request trace of its
try body. -/
theorem chat_trace (baseUrl : String) (net : Net) (i : NavChatInput) :
    (chat baseUrl net i).2.1 = (chatTry baseUrl net i).2 := by
  unfold chat
  cases h : chatTry baseUrl net i with
  | mk res t => cases res <;> rfl

/-- Shape of the request trace of `generate-commit-message`: either only
the initiate POST was attempted, or the initiate response arrived ok with
a parsed body, and the only further request is the fetch GET built from
the `SessionId` read out of that same initiate response body. -/
theorem generateCommitMessageTry_trace_shape (net : Net) (prompt : String) :
    (generateCommitMessageTry net prompt).2 = [.http (gcmInitiateRequest prompt)] ∨
    ∃ resp body sid,
      net (gcmInitiateRequest prompt) = .success resp ∧ resp.ok = true ∧
      resp.json = .ok body ∧ jsGet body "SessionId" = .ok sid ∧
      (generateCommitMessageTry net prompt).2 =
        [.http (gcmInitiateRequest prompt), .http (gcmFetchRequest sid)] := by
  simp only [generateCommitMessageTry]
  cases h1 : net (gcmInitiateRequest prompt) with
  | thrown e => exact Or.inl rfl
  | success resp =>
    cases hok : resp.ok with
    | false => left; simp [hok]
    | true =>
      cases hj : resp.json with
      | error e => left; simp [hok, hj]
      | ok body =>
        cases hg : jsGet body "SessionId" with
        | error e => left; simp [hok, hj, hg]
        | ok sid =>
          right
          refine ⟨resp, body, sid, rfl, hok, hj, hg, ?_⟩
          cases h2 : net (gcmFetchRequest sid) with
          | thrown e => simp [hok, hj, hg, h2]
          | success resp2 =>
            cases hok2 : resp2.ok with
            | false => simp [hok, hj, hg, h2, hok2]
            | true =>
              cases hj2 : resp2.json with
              | error e => simp [hok, hj, hg, h2, hok2, hj2]
              | ok fetchData =>
                cases hr2 : jsGet fetchData "response" with
                | error e => simp [hok, hj, hg, h2, hok2, hj2, hr2]
                | ok responseField =>
                  cases ht2 : jsGet responseField "text" with
                  | error e => simp [hok, hj, hg, h2, hok2, hj2, hr2, ht2]
                  | ok commitMessage => simp [hok, hj, hg, h2, hok2, hj2, hr2, ht2]

/-- Shape of the request trace of `chat`: either only the initiate POST
was attempted, or the initiate response arrived ok with a parsed body,
and the only further request is the get-response GET built from the
`sessionId` destructured out of that same initiate response body. -/
theorem chatTry_trace_shape (baseUrl : String) (net : Net) (i : NavChatInput) :
    (chatTry baseUrl net i).2 = [.http (chatInitiateRequest baseUrl i)] ∨
    ∃ resp body sid,
      net (chatInitiateRequest baseUrl i) = .success resp ∧ resp.ok = true ∧
      resp.json = .ok body ∧ jsGet body "sessionId" = .ok sid ∧
      (chatTry baseUrl net i).2 =
        [.http (chatInitiateRequest baseUrl i), .http (chatGetResponseRequest baseUrl sid)] := by
  simp only [chatTry]
  cases h1 : net (chatInitiateRequest baseUrl i) with
  | thrown e => exact Or.inl rfl
  | success resp =>
    cases hok : resp.ok with
    | false => left; simp [hok]
    | true =>
      cases hj : resp.json with
      | error e => left; simp [hok, hj]
      | ok body =>
        cases hg : jsGet body "sessionId" with
        | error e => left; simp [hok, hj, hg]
        | ok sid =>
          right
          refine ⟨resp, body, sid, rfl, hok, hj, hg, ?_⟩
          cases h2 : net (chatGetResponseRequest baseUrl sid) with
          | thrown e => simp [hok, hj, hg, h2]
          | success resp2 =>
            cases hok2 : resp2.ok with
            | false => simp [hok, hj, hg, h2, hok2]
            | true =>
              cases hj2 : resp2.json with
              | error e => simp [hok, hj, hg, h2, hok2, hj2]
              | ok chatData => simp [hok, hj, hg, h2, hok2, hj2]

/-!
## Claim C3
-/

/-- C3: in both two-step tools the initiate POST is always the first
request; a fetch GET is only ever issued after an ok initiate response,
and its URL carries exactly the session identifier read out of that same
invocation's initiate response body. -/
theorem C3_theorem :
    (∀ (net : Net) (prompt : String),
      (gcmInitiateRequest prompt).method = "POST" ∧
      (∀ sid, (gcmFetchRequest sid).method = "GET" ∧
        (gcmFetchRequest sid).url =
          gcmApiUrl ++ "/get_api_" ++ gcmVersion ++ "_chat_getresponse_" ++ jsInterp sid) ∧
      ((generateCommitMessage net prompt).2.1 = [.http (gcmInitiateRequest prompt)] ∨
        ∃ resp body sid,
          net (gcmInitiateRequest prompt) = .success resp ∧ resp.ok = true ∧
          resp.json = .ok body ∧ jsGet body "SessionId" = .ok sid ∧
          (generateCommitMessage net prompt).2.1 =
            [.http (gcmInitiateRequest prompt), .http (gcmFetchRequest sid)])) ∧
    (∀ (baseUrl : String) (net : Net) (i : NavChatInput),
      (chatInitiateRequest baseUrl i).method = "POST" ∧
      (∀ sid, (chatGetResponseRequest baseUrl sid).method = "GET" ∧
        (chatGetResponseRequest baseUrl sid).url =
          baseUrl ++ "/chat/getresponse/" ++ jsInterp sid) ∧
      ((chat baseUrl net i).2.1 = [.http (chatInitiateRequest baseUrl i)] ∨
        ∃ resp body sid,
          net (chatInitiateRequest baseUrl i) = .success resp ∧ resp.ok = true ∧
          resp.json = .ok body ∧ jsGet body "sessionId" = .ok sid ∧
          (chat baseUrl net i).2.1 =
            [.http (chatInitiateRequest baseUrl i), .http (chatGetResponseRequest baseUrl sid)])) := by
  constructor
  · intro net prompt
    refine ⟨rfl, fun sid => ⟨rfl, rfl⟩, ?_⟩
    rw [generateCommitMessage_trace]
    exact generateCommitMessageTry_trace_shape net prompt
  · intro baseUrl net i
    refine ⟨rfl, fun sid => ⟨rfl, rfl⟩, ?_⟩
    rw [chat_trace]
    exact chatTry_trace_shape baseUrl net i

/-!
## Claim C10
-/

/-- C10: when the initiate response of `generate-commit-message` is
HTTP-ok but its parsed body has no `SessionId` field, the field read
yields `undefined` without any validation, and the second request is
still attempted — a GET whose URL interpolates the string `undefined`. -/
theorem C10_theorem :
    ∀ (net : Net) (prompt : String) (resp : HttpResponse) (fields : List (String × Js)),
      net (gcmInitiateRequest prompt) = .success resp →
      resp.ok = true →
      resp.json = .ok (.obj fields) →
      fields.lookup "SessionId" = none →
      (generateCommitMessage net prompt).2.1 =
        [.http (gcmInitiateRequest prompt), .http (gcmFetchRequest .undefined)] ∧
      (gcmFetchRequest Js.undefined).url =
        gcmApiUrl ++ "/get_api_v1_chat_getresponse_undefined" := by
  intro net prompt resp fields h1 hok hj hlk
  refine ⟨?_, rfl⟩
  rw [generateCommitMessage_trace]
  have hg : jsGet (Js.obj fields) "SessionId" = .ok .undefined := by
    simp only [jsGet, hlk]
  simp only [generateCommitMessageTry]
  rw [h1]
  simp only [hok, hj, hg, Bool.not_true, Bool.false_eq_true, if_false]
  cases h2 : net (gcmFetchRequest Js.undefined) with
  | thrown e => rfl
  | success resp2 =>
    cases hok2 : resp2.ok with
    | false => simp [hok2]
    | true =>
      cases hj2 : resp2.json with
      | error e => simp [hok2, hj2]
      | ok fetchData =>
        cases hr2 : jsGet fetchData "response" with
        | error e => simp [hok2, hj2, hr2]
        | ok responseField =>
          cases ht2 : jsGet responseField "text" with
          | error e => simp [hok2, hj2, hr2, ht2]
          | ok commitMessage => simp [hok2, hj2, hr2, ht2]

/-- C10 witness: the theorem applied at a concrete network whose initiate
response is ok with an empty JSON object body. -/
theorem C10_witness :
    (generateCommitMessage
        (fun req => if req.method = "POST"
          then .success ⟨true, "OK", .ok (.obj [])⟩
          else .thrown "second leg down")
        "write a commit message").2.1 =
      [.http (gcmInitiateRequest "write a commit message"),
        .http (gcmFetchRequest .undefined)] ∧
    (gcmFetchRequest Js.undefined).url =
      gcmApiUrl ++ "/get_api_v1_chat_getresponse_undefined" := by
  exact C10_theorem
    (fun req => if req.method = "POST"
      then .success ⟨true, "OK", .ok (.obj [])⟩
      else .thrown "second leg down")
    "write a commit message" ⟨true, "OK", .ok (.obj [])⟩ [] rfl rfl rfl rfl

/-!
## Helper lemmas: success shapes
-/

/-- Every success of the `generate-commit-message` try body carries
exactly one text content block. -/
theorem generateCommitMessageTry_ok_content (net : Net) (prompt : String)
    (r : ToolResult) (t : List OutboundCall)
    (h : generateCommitMessageTry net prompt = (.ok r, t)) :
    ∃ payload, r.content = [.text payload] := by
  simp only [generateCommitMessageTry] at h
  repeat' split at h
  all_goals first
    | (simp only [Prod.mk.injEq, Except.ok.injEq] at h
       obtain ⟨hr, -⟩ := h
       subst hr
       exact ⟨_, rfl⟩)
    | simp at h

/-- Every success of the `agent-query` try body carries exactly one text
content block. -/
theorem agentQueryTry_ok_content (baseUrl : String) (net : Net) (i : NavChatInput)
    (r : ToolResult) (t : List OutboundCall)
    (h : agentQueryTry baseUrl net i = (.ok r, t)) :
    ∃ payload, r.content = [.text payload] := by
  simp only [agentQueryTry] at h
  repeat' split at h
  all_goals first
    | (simp only [Prod.mk.injEq, Except.ok.injEq] at h
       obtain ⟨hr, -⟩ := h
       subst hr
       exact ⟨_, rfl⟩)
    | simp at h

/-- Every success of the `chat` try body carries exactly one text content
block. -/
theorem chatTry_ok_content (baseUrl : String) (net : Net) (i : NavChatInput)
    (r : ToolResult) (t : List OutboundCall)
    (h : chatTry baseUrl net i = (.ok r, t)) :
    ∃ payload, r.content = [.text payload] := by
  simp only [chatTry] at h
  repeat' split at h
  all_goals first
    | (simp only [Prod.mk.injEq, Except.ok.injEq] at h
       obtain ⟨hr, -⟩ := h
       subst hr
       exact ⟨_, rfl⟩)
    | simp at h

/-- Every success of the `rag-query` try body carries exactly one text
content block. -/
theorem ragQueryTry_ok_content (baseUrl : String) (net : Net) (prompt : String)
    (r : ToolResult) (t : List OutboundCall)
    (h : ragQueryTry baseUrl net prompt = (.ok r, t)) :
    ∃ payload, r.content = [.text payload] := by
  simp only [ragQueryTry] at h
  repeat' split at h
  all_goals first
    | (simp only [Prod.mk.injEq, Except.ok.injEq] at h
       obtain ⟨hr, -⟩ := h
       subst hr
       exact ⟨_, rfl⟩)
    | simp at h

/-- On an ok response whose body parses to `\x7b answer, references \x7d`,
`rag-query` returns exactly the combined single text block. -/
theorem ragQuery_success_shape (baseUrl : String) (net : Net)
    (prompt answer : String) (references : Js) (resp : HttpResponse)
    (h1 : net ⟨baseUrl ++ "/rag/query", "POST",
      some (stringify (.obj [("prompt", .str prompt)]))⟩ = .success resp)
    (hok : resp.ok = true)
    (hj : resp.json = .ok (.obj [("answer", .str answer), ("references", references)])) :
    ragQuery baseUrl net prompt =
      (.result ⟨[.text (.str ("Answer: " ++ answer ++ "\n\nReferences: " ++
          stringify references))]⟩,
        [.http ⟨baseUrl ++ "/rag/query", "POST",
          some (stringify (.obj [("prompt", .str prompt)]))⟩],
        []) := by
  have htry : ragQueryTry baseUrl net prompt =
      (.ok ⟨[.text (.str ("Answer: " ++ answer ++ "\n\nReferences: " ++
          stringify references))]⟩,
        [.http ⟨baseUrl ++ "/rag/query", "POST",
          some (stringify (.obj [("prompt", .str prompt)]))⟩]) := by
    have ha : jsGet (Js.obj [("answer", Js.str answer), ("references", references)])
        "answer" = .ok (.str answer) := rfl
    have hrf : jsGet (Js.obj [("answer", Js.str answer), ("references", references)])
        "references" = .ok references := rfl
    simp only [ragQueryTry]
    rw [h1]
    simp [hok, hj, ha, hrf, jsInterp]
  exact ragQuery_try_ok baseUrl net prompt _ _ htry

/-!
## Claim C6
-/

/-- C6: every successful invocation returns a ToolResult with exactly one
text content block carrying the generated or fetched text; for
`rag-query`, given an endpoint response with `answer` and `references`
fields, the single block contains both the answer string and the
JSON-serialized references. -/
theorem C6_theorem :
    (∀ (env : GeminiEnv) (genAi : GenAi) (prompt txt : String),
      jsTruthyStr env.geminiApiKey = true →
      genAi (env.geminiApiKey.getD "") (env.geminiApiModel.getD "") prompt = .success txt →
      (askAnthony env genAi prompt).1 = .result ⟨[.text (.str txt)]⟩) ∧
    (∀ (genAi : GenAi) (prompt txt : String),
      genAi "Placeholder" geminiToolModel prompt = .success txt →
      (geminiTool genAi prompt).1 = .result ⟨[.text (.str txt)]⟩) ∧
    (∀ (net : Net) (prompt : String) (r : ToolResult) (t : List OutboundCall),
      generateCommitMessageTry net prompt = (.ok r, t) →
      (generateCommitMessage net prompt).1 = .result r ∧
        ∃ payload, r.content = [.text payload]) ∧
    (∀ (baseUrl : String) (net : Net) (i : NavChatInput) (r : ToolResult) (t : List OutboundCall),
      agentQueryTry baseUrl net i = (.ok r, t) →
      (agentQuery baseUrl net i).1 = .result r ∧
        ∃ payload, r.content = [.text payload]) ∧
    (∀ (baseUrl : String) (net : Net) (i : NavChatInput) (r : ToolResult) (t : List OutboundCall),
      chatTry baseUrl net i = (.ok r, t) →
      (chat baseUrl net i).1 = .result r ∧
        ∃ payload, r.content = [.text payload]) ∧
    (∀ (baseUrl : String) (net : Net) (prompt : String) (r : ToolResult) (t : List OutboundCall),
      ragQueryTry baseUrl net prompt = (.ok r, t) →
      (ragQuery baseUrl net prompt).1 = .result r ∧
        ∃ payload, r.content = [.text payload]) ∧
    (∀ (baseUrl : String) (net : Net) (prompt answer : String) (references : Js)
        (resp : HttpResponse),
      net ⟨baseUrl ++ "/rag/query", "POST",
        some (stringify (.obj [("prompt", .str prompt)]))⟩ = .success resp →
      resp.ok = true →
      resp.json = .ok (.obj [("answer", .str answer), ("references", references)]) →
      (ragQuery baseUrl net prompt).1 =
        .result ⟨[.text (.str ("Answer: " ++ answer ++ "\n\nReferences: " ++
          stringify references))]⟩ ∧
      (∃ u v, ("Answer: " ++ answer ++ "\n\nReferences: " ++ stringify references) =
        u ++ answer ++ v) ∧
      (∃ u v, ("Answer: " ++ answer ++ "\n\nReferences: " ++ stringify references) =
        u ++ stringify references ++ v)) := by
  refine ⟨?_, ?_, ?_, ?_, ?_, ?_, ?_⟩
  · intro env genAi prompt txt hkey hgen
    rw [askAnthony_gen_success env genAi prompt txt hkey hgen]
  · intro genAi prompt txt hgen
    unfold geminiTool
    rw [hgen]
  · intro net prompt r t h
    exact ⟨by rw [generateCommitMessage_try_ok net prompt r t h],
      generateCommitMessageTry_ok_content net prompt r t h⟩
  · intro baseUrl net i r t h
    exact ⟨by rw [agentQuery_try_ok baseUrl net i r t h],
      agentQueryTry_ok_content baseUrl net i r t h⟩
  · intro baseUrl net i r t h
    exact ⟨by rw [chat_try_ok baseUrl net i r t h],
      chatTry_ok_content baseUrl net i r t h⟩
  · intro baseUrl net prompt r t h
    exact ⟨by rw [ragQuery_try_ok baseUrl net prompt r t h],
      ragQueryTry_ok_content baseUrl net prompt r t h⟩
  · intro baseUrl net prompt answer references resp h1 hok hj
    refine ⟨by rw [ragQuery_success_shape baseUrl net prompt answer references resp h1 hok hj],
      ⟨"Answer: ", "\n\nReferences: " ++ stringify references, by
        simp [String.append_assoc]⟩,
      ⟨"Answer: " ++ answer ++ "\n\nReferences: ", "", by
        simp [String.append_assoc]⟩⟩

/-- C6 witness: the statement applied at the two mock scenarios of the
spec — the echoing model for `ask-anthony` and the
`\x7b answer, references \x7d` endpoint for `rag-query`. -/
theorem C6_witness :
    (askAnthony ⟨some "key", some "model"⟩
        (fun _ _ p => .success ("ECHO: " ++ p)) "Summarize: hello world").1 =
      .result ⟨[.text (.str "ECHO: Summarize: hello world")]⟩ ∧
    (ragQuery "https://n"
        (fun _ => .success ⟨true, "OK",
          .ok (.obj [("answer", .str "X is Y"),
            ("references", .arr [.obj [("id", .num 1)]])])⟩)
        "What is X?").1 =
      .result ⟨[.text (.str ("Answer: X is Y\n\nReferences: " ++
        stringify (.arr [.obj [("id", .num 1)]])))]⟩ := by
  exact ⟨C6_theorem.1 ⟨some "key", some "model"⟩
      (fun _ _ p => .success ("ECHO: " ++ p)) "Summarize: hello world"
      "ECHO: Summarize: hello world" rfl rfl,
    (C6_theorem.2.2.2.2.2.2 "https://n"
      (fun _ => .success ⟨true, "OK",
        .ok (.obj [("answer", .str "X is Y"),
          ("references", .arr [.obj [("id", .num 1)]])])⟩)
      "What is X?" "X is Y" (.arr [.obj [("id", .num 1)]])
      ⟨true, "OK", .ok (.obj [("answer", .str "X is Y"),
        ("references", .arr [.obj [("id", .num 1)]])])⟩ rfl rfl rfl).1⟩

/-!
## Helper lemmas: what the zod combinators guarantee
-/

/-- A value accepted by `z.string().uuid()` is UUID-shaped. -/
theorem zStringUuid_isUuid (v : Option Js) (s : String)
    (h : zStringUuid v = some s) : isUuid s = true := by
  unfold zStringUuid at h
  split at h
  · split at h
    next hu =>
      injection h with h
      subst h
      exact hu
    · cases h
  · cases h

/-- A value accepted by `z.number().int().min(lo).max(hi)` lies in the
inclusive bounds. -/
theorem zNumberIntRange_bounds (lo hi : Int) (v : Option Js) (n : Int)
    (h : zNumberIntRange lo hi v = some n) : lo ≤ n ∧ n ≤ hi := by
  unfold zNumberIntRange at h
  split at h
  · split at h
    next hc =>
      injection h with h
      subst h
      simpa [Bool.and_eq_true, decide_eq_true_eq] using hc
    · cases h
  · cases h

/-- A value accepted by `z.string().min(1)` is non-empty. -/
theorem zStringMin1_ne_empty (v : Option Js) (s : String)
    (h : zStringMin1 v = some s) : s ≠ "" := by
  unfold zStringMin1 at h
  split at h
  next s0 hz =>
    split at h
    next hlen =>
      injection h with h
      subst h
      intro hempty
      rw [hempty] at hlen
      simp at hlen
    · cases h
  · cases h

/-- Every `sender` tag serializes to one of the six enumerated strings. -/
theorem senderString_mem (s : Sender) :
    senderString s ∈ ["UI", "API", "Mobile", "Bot", "IntegrationTest", "UnitTest"] := by
  cases s <;> simp [senderString]

/-!
## Claim C7
-/

/-- C7: the `agent-query`/`chat` schema accepts only UUID-shaped
`applicationId` and `userId`, an integral `modelId` in `[1, 32767]`, a
`sender` tag from the enumerated set, and a non-empty `senderId`; a raw
argument mapping the schema rejects never reaches the handler — the
dispatch answers an invalid-arguments fault with zero outbound calls and
an empty log. -/
theorem C7_theorem :
    (∀ (raw : RawArgs) (i : NavChatInput), parseNavChatArgs raw = some i →
      isUuid i.applicationId = true ∧
      1 ≤ i.modelId ∧ i.modelId ≤ 32767 ∧
      senderString i.sender ∈ ["UI", "API", "Mobile", "Bot", "IntegrationTest", "UnitTest"] ∧
      i.senderId ≠ "" ∧
      isUuid i.userId = true) ∧
    (∀ (baseUrl : String) (net : Net) (raw : RawArgs), parseNavChatArgs raw = none →
      navigatorDispatch baseUrl net "agent-query" raw = (.invalidArguments, [], []) ∧
      navigatorDispatch baseUrl net "chat" raw = (.invalidArguments, [], [])) := by
  constructor
  · intro raw i h
    unfold parseNavChatArgs at h
    cases h1 : zStringUuid (raw.lookup "applicationId") with
    | none => rw [h1] at h; cases h
    | some a =>
      rw [h1] at h
      cases h2 : zNumberIntRange 1 32767 (raw.lookup "modelId") with
      | none => rw [h2] at h; cases h
      | some m =>
        rw [h2] at h
        cases h3 : zStringMin1 (raw.lookup "prompt") with
        | none => rw [h3] at h; cases h
        | some p =>
          rw [h3] at h
          cases h4 : zEnumSender (raw.lookup "sender") with
          | none => rw [h4] at h; cases h
          | some snd =>
            rw [h4] at h
            cases h5 : zStringMin1 (raw.lookup "senderId") with
            | none => rw [h5] at h; cases h
            | some sid =>
              rw [h5] at h
              cases h6 : zStringUuid (raw.lookup "userId") with
              | none => rw [h6] at h; cases h
              | some u =>
                rw [h6] at h
                injection h with h
                subst h
                exact ⟨zStringUuid_isUuid _ _ h1,
                  (zNumberIntRange_bounds 1 32767 _ _ h2).1,
                  (zNumberIntRange_bounds 1 32767 _ _ h2).2,
                  senderString_mem snd,
                  zStringMin1_ne_empty _ _ h5,
                  zStringUuid_isUuid _ _ h6⟩
  · intro baseUrl net raw h
    constructor
    · unfold navigatorDispatch
      rw [if_pos rfl, h]
    · unfold navigatorDispatch
      rw [if_neg (by decide), if_pos rfl, h]

/-- C7 witness: the statement applied to a concrete accepted mapping and
a concrete rejected one (a non-UUID `userId`). -/
theorem C7_witness :
    (isUuid "123e4567-e89b-12d3-a456-426614174000" = true ∧
      (1 : Int) ≤ 5 ∧ (5 : Int) ≤ 32767 ∧
      senderString .UI ∈ ["UI", "API", "Mobile", "Bot", "IntegrationTest", "UnitTest"] ∧
      "s1" ≠ "" ∧
      isUuid "123e4567-e89b-12d3-a456-426614174000" = true) ∧
    navigatorDispatch "https://n" (fun _ => .thrown "unused") "agent-query"
      [("applicationId", .str "123e4567-e89b-12d3-a456-426614174000"),
        ("modelId", .num 5), ("prompt", .str "hi"), ("sender", .str "UI"),
        ("senderId", .str "s1"), ("userId", .str "not-a-uuid")] =
      (.invalidArguments, [], []) := by
  refine ⟨?_, ?_⟩
  · exact C7_theorem.1
      [("applicationId", .str "123e4567-e89b-12d3-a456-426614174000"),
        ("modelId", .num 5), ("prompt", .str "hi"), ("sender", .str "UI"),
        ("senderId", .str "s1"),
        ("userId", .str "123e4567-e89b-12d3-a456-426614174000")]
      ⟨"123e4567-e89b-12d3-a456-426614174000", 5, "hi", .UI, "s1",
        "123e4567-e89b-12d3-a456-426614174000"⟩ (by decide)
  · exact (C7_theorem.2 "https://n" (fun _ => .thrown "unused")
      [("applicationId", .str "123e4567-e89b-12d3-a456-426614174000"),
        ("modelId", .num 5), ("prompt", .str "hi"), ("sender", .str "UI"),
        ("senderId", .str "s1"), ("userId", .str "not-a-uuid")] (by decide)).1
